import Mathlib

/-!
Verification of the container lifecycle / log / restart engine
(`engine/container.go` of the cflocal repository).

The Go code is shallowly embedded: external collaborator calls (the Docker
client) are modelled by oracles (structures of response fields), goroutine
interleavings of the `select` loop are modelled by an explicit list of the
events the loop observes, byte streams are lists of bytes, and the side
effects of each code path are recorded as explicit action traces.
-/

namespace Engine

/-- Go `error` values, as far as this code inspects them: the `context.Canceled`
sentinel, `io.EOF` (what `tar.Reader.Next` returns at archive end), and
arbitrary other errors identified by their message string. -/
inductive GoError where
  | contextCanceled
  | ioEOF
  | msg (s : String)
deriving DecidableEq, Repr

/-- The string produced by Go's `err.Error()` for each modelled error. -/
def GoError.message : GoError → String
  | .contextCanceled => "context canceled"
  | .ioEOF => "EOF"
  | .msg s => s

/-- Embeds `isErrCanceled` (container.go lines 136-138):
`err == context.Canceled || (err != nil && strings.HasSuffix(err.Error(), "context canceled"))`.
`none` models a nil error. -/
def isErrCanceled : Option GoError → Bool
  | none => false
  | some e => (e == GoError.contextCanceled) || (e.message.endsWith "context canceled")

/-- Timestamps in nanoseconds since the Unix epoch; `time.Unix(0, 0)` is `0`. -/
abbrev Time := Int

/-- Ten milliseconds in nanoseconds (`10 * time.Millisecond`). -/
def tenMilliseconds : Time := 10000000

/-- The observable calls and channel operations `Container.Start` performs,
in program order. `logsSince t` is a `ContainerLogs` request whose `Since`
field is the timestamp `t`; `pushSource` is a send on the `srcs` channel. -/
inductive Action where
  | containerStart
  | logsFollow
  | containerRestart (graceSeconds : Nat)
  | containerInspect
  | closeLogSource
  | logsSince (t : Time)
  | pushSource
deriving DecidableEq, Repr

/-- Oracle for the Docker client as seen by `Container.Start`. Per-attempt
responses are indexed by the number of restart triggers already processed.
`parse` abstracts Go's `time.Parse(time.RFC3339Nano, ·)` (standard library,
outside this repository): `none` means the string is unparsable. -/
structure StartEnv where
  startErr : Option GoError
  logsErr : Option GoError
  waitResult : Int × Option GoError
  restartErr : Nat → Option GoError
  inspectResult : Nat → Option String
  parse : String → Option Time
  logsSinceErr : Nat → Option GoError

/-- Embeds one pass through the `case <-restart:` body (container.go lines
105-129) as the list of actions it performs on attempt `n`:
`ContainerRestart` with a fixed 1-second grace period; on its failure,
`continue`; then `ContainerInspect`; on its failure, `continue`; parse
`State.StartedAt`, falling back to `time.Unix(0, 0)` when unparsable; close
the previous log source; request new logs with `Since` = startedAt - 10ms;
on failure of that request, `continue`; otherwise push the new source. -/
def restartAttempt (env : StartEnv) (n : Nat) : List Action :=
  match env.restartErr n with
  | some _ => [Action.containerRestart 1]
  | none =>
    match env.inspectResult n with
    | none => [Action.containerRestart 1, Action.containerInspect]
    | some s =>
      let startedAt : Time := (env.parse s).getD 0
      let pre := [Action.containerRestart 1, Action.containerInspect,
        Action.closeLogSource, Action.logsSince (startedAt - tenMilliseconds)]
      match env.logsSinceErr n with
      | some _ => pre
      | none => pre ++ [Action.pushSource]

/-- The two events the `select` at container.go lines 104-132 can observe:
a value on the `restart` channel, or the `c.Exit` channel firing. A run of
the loop is driven by the sequence of events the `select` observes. -/
inductive Ev where
  | restartTick
  | exitFires
deriving DecidableEq, Repr

/-- Embeds the `for { select { ... } }` loop (container.go lines 103-133),
driven by the observed event list. Returns the actions performed and
`some (status, err)` if the loop returned, `none` if it is still blocked
after the given events. `<-c.Exit` returns `(128, nil)` immediately; a
restart trigger performs one attempt and continues regardless of errors. -/
def restartLoop (env : StartEnv) : List Ev → Nat → List Action × Option (Int × Option GoError)
  | [], _ => ([], none)
  | Ev.exitFires :: _, _ => ([], some (128, none))
  | Ev.restartTick :: rest, n =>
    let r := restartLoop env rest (n + 1)
    (restartAttempt env n ++ r.1, r.2)

/-- Embeds the deferred error normalization at container.go lines 62-67:
on return, a result whose error satisfies `isErrCanceled` becomes
`(128, nil)`. -/
def normalizeRet (r : Int × Option GoError) : Int × Option GoError :=
  if isErrCanceled r.2 then (128, none) else r

/-- Embeds `Container.Start` before its deferred normalization runs.
`events = none` models a nil `restart` channel (block on `ContainerWait`);
`events = some evs` models the restart loop observing `evs`. -/
def startRaw (env : StartEnv) (events : Option (List Ev)) :
    List Action × Option (Int × Option GoError) :=
  match env.startErr with
  | some e => ([Action.containerStart], some (0, some e))
  | none =>
    match env.logsErr with
    | some e => ([Action.containerStart, Action.logsFollow], some (0, some e))
    | none =>
      let pre := [Action.containerStart, Action.logsFollow, Action.pushSource]
      match events with
      | none => (pre, some env.waitResult)
      | some evs =>
        let r := restartLoop env evs 0
        (pre ++ r.1, r.2)

/-- Embeds `Container.Start` (container.go lines 61-134): the raw run with
the deferred cancellation normalization applied to whatever is returned. -/
def start (env : StartEnv) (events : Option (List Ev)) :
    List Action × Option (Int × Option GoError) :=
  ((startRaw env events).1, (startRaw env events).2.map normalizeRet)

/-- The normalized return never carries a cancellation-style error. -/
theorem normalizeRet_not_canceled (r : Int × Option GoError) :
    isErrCanceled (normalizeRet r).2 = false := by
  unfold normalizeRet
  cases hb : isErrCanceled r.2 with
  | false => simp [hb]
  | true => simp [hb, isErrCanceled]

/-- Claim C1: if the underlying wait call fails with the cancellation
sentinel or an error whose message ends with "context canceled", `Start`
returns status 128 with a nil error; moreover, on every path, the error
`Start` returns never satisfies the cancellation test — cancellation of the
shared context is never surfaced as an error. -/
theorem start_canceled_wait_returns_128 (env : StartEnv)
    (hs : env.startErr = none) (hl : env.logsErr = none)
    (hc : isErrCanceled env.waitResult.2 = true) :
    (start env none).2 = some (128, none) ∧
    ∀ (env2 : StartEnv) (events : Option (List Ev)) (res : Int × Option GoError),
      (start env2 events).2 = some res → isErrCanceled res.2 = false := by
  constructor
  · unfold start startRaw
    rw [hs, hl]
    simp [normalizeRet, hc]
  · intro env2 events res hres
    unfold start at hres
    simp only [Option.map_eq_some'] at hres
    obtain ⟨r, _, hr⟩ := hres
    rw [← hr]
    exact normalizeRet_not_canceled r

/-- Concrete witness environment: wait fails with the `context.Canceled`
sentinel. -/
def witnessEnvC1 : StartEnv where
  startErr := none
  logsErr := none
  waitResult := (0, some GoError.contextCanceled)
  restartErr := fun _ => none
  inspectResult := fun _ => none
  parse := fun _ => none
  logsSinceErr := fun _ => none

/-- Witness for claim C1 at a concrete environment: the canceled wait turns
into (128, nil), and the returned error of that concrete run does not pass
the cancellation test. -/
theorem start_canceled_wait_returns_128_witness :
    (start witnessEnvC1 none).2 = some (128, none) ∧
    isErrCanceled ((128 : Int), (none : Option GoError)).2 = false :=
  ⟨(start_canceled_wait_returns_128 witnessEnvC1 rfl rfl rfl).1,
    (start_canceled_wait_returns_128 witnessEnvC1 rfl rfl rfl).2 witnessEnvC1 none
      (128, none) rfl⟩

/-- When creation and the initial log request succeed and a restart channel
is present, `startRaw` is the initial actions followed by the loop run. -/
theorem startRaw_some (env : StartEnv) (hs : env.startErr = none)
    (hl : env.logsErr = none) (evs : List Ev) :
    startRaw env (some evs) =
      ([Action.containerStart, Action.logsFollow, Action.pushSource] ++
          (restartLoop env evs 0).1,
        (restartLoop env evs 0).2) := by
  unfold startRaw
  rw [hs, hl]

/-- Once the loop observes the exit event, everything after it is irrelevant:
the run equals the run that stops at the exit event, and it returns
`(128, nil)`. -/
theorem restartLoop_exit_terminal (env : StartEnv) (pre post : List Ev) (n : Nat)
    (hpre : Ev.exitFires ∉ pre) :
    restartLoop env (pre ++ Ev.exitFires :: post) n =
      restartLoop env (pre ++ [Ev.exitFires]) n ∧
    (restartLoop env (pre ++ Ev.exitFires :: post) n).2 = some (128, none) := by
  induction pre generalizing n with
  | nil => simp [restartLoop]
  | cons e rest ih =>
    cases e with
    | exitFires => exact absurd (List.mem_cons_self _ _) hpre
    | restartTick =>
      have hrest : Ev.exitFires ∉ rest := fun h => hpre (List.mem_cons_of_mem _ h)
      obtain ⟨ih1, ih2⟩ := ih (n := n + 1) hrest
      constructor
      · simp only [List.cons_append, restartLoop, List.append_eq]
        rw [ih1]
      · simp only [List.cons_append, restartLoop, List.append_eq]
        exact ih2

/-- Claim C2: with a restart trigger configured, once the exit signal fires
`Start` returns status 128 with nil error, and no restart attempt is invoked
after the exit event: the run is identical to the run in which no further
event follows the exit (the restart-trigger input is treated as absent from
that point on). -/
theorem start_exit_terminal_128 (env : StartEnv) (pre post : List Ev)
    (hs : env.startErr = none) (hl : env.logsErr = none)
    (hpre : Ev.exitFires ∉ pre) :
    start env (some (pre ++ Ev.exitFires :: post)) =
      start env (some (pre ++ [Ev.exitFires])) ∧
    (start env (some (pre ++ Ev.exitFires :: post))).2 = some (128, none) := by
  obtain ⟨h1, h2⟩ := restartLoop_exit_terminal env pre post 0 hpre
  have e1 := startRaw_some env hs hl (pre ++ Ev.exitFires :: post)
  have e2 := startRaw_some env hs hl (pre ++ [Ev.exitFires])
  constructor
  · unfold start
    rw [e1, e2, h1]
  · unfold start
    rw [e1]
    simp [h2, normalizeRet, isErrCanceled]

/-- Witness for claim C2: one restart trigger, then exit, then a further
(ignored) restart trigger. -/
theorem start_exit_terminal_128_witness :
    start witnessEnvC1 (some ([Ev.restartTick] ++ Ev.exitFires :: [Ev.restartTick])) =
      start witnessEnvC1 (some ([Ev.restartTick] ++ [Ev.exitFires])) ∧
    (start witnessEnvC1
      (some ([Ev.restartTick] ++ Ev.exitFires :: [Ev.restartTick]))).2 = some (128, none) :=
  start_exit_terminal_128 witnessEnvC1 [Ev.restartTick] [Ev.restartTick] rfl rfl
    (by decide)

/-- Any value the restart loop ever returns is `(128, nil)`: no restart
attempt can make the loop return an error. -/
theorem restartLoop_result_always_128 (env : StartEnv) (evs : List Ev) (n : Nat)
    (r : Int × Option GoError) (h : (restartLoop env evs n).2 = some r) :
    r = (128, none) := by
  induction evs generalizing n with
  | nil => simp [restartLoop] at h
  | cons e rest ih =>
    cases e with
    | exitFires =>
      simp only [restartLoop] at h
      exact (Option.some_inj.mp h).symm
    | restartTick =>
      simp only [restartLoop] at h
      exact ih (n + 1) h

/-- Claim C3: restart-loop transient failures are swallowed. The theorem
records, in one statement: (a) any value the loop returns is `(128, nil)`,
so no error is ever returned for a failed attempt; (b) after any trigger the
loop always continues with the remaining events, whatever the attempt did;
(c) a failed restart request performs nothing beyond the restart call;
(d) a failed inspect performs nothing beyond restart and inspect; (e) an
unparsable start time falls back to the Unix epoch: the new log source is
requested with `Since` = epoch - 10ms. -/
theorem restart_loop_swallows_errors (env : StartEnv) (n : Nat) :
    (∀ (evs : List Ev) (m : Nat) (r : Int × Option GoError),
      (restartLoop env evs m).2 = some r → r = (128, none)) ∧
    (∀ rest : List Ev,
      restartLoop env (Ev.restartTick :: rest) n =
        (restartAttempt env n ++ (restartLoop env rest (n + 1)).1,
          (restartLoop env rest (n + 1)).2)) ∧
    (∀ e : GoError, env.restartErr n = some e →
      restartAttempt env n = [Action.containerRestart 1]) ∧
    (env.restartErr n = none → env.inspectResult n = none →
      restartAttempt env n = [Action.containerRestart 1, Action.containerInspect]) ∧
    (∀ s : String, env.restartErr n = none → env.inspectResult n = some s →
      env.parse s = none →
      restartAttempt env n =
        [Action.containerRestart 1, Action.containerInspect, Action.closeLogSource,
          Action.logsSince (0 - tenMilliseconds)] ++
        (match env.logsSinceErr n with
          | some _ => []
          | none => [Action.pushSource])) := by
  refine ⟨fun evs m r h => restartLoop_result_always_128 env evs m r h,
    fun rest => rfl, ?_, ?_, ?_⟩
  · intro e he
    simp only [restartAttempt, he]
  · intro h1 h2
    simp only [restartAttempt, h1, h2]
  · intro s h1 h2 h3
    cases henv : env.logsSinceErr n <;>
      simp [restartAttempt, h1, h2, h3, henv]

/-- Concrete environment for the C3 witness: the restart call fails on every
attempt. -/
def witnessEnvC3 : StartEnv where
  startErr := none
  logsErr := none
  waitResult := (0, none)
  restartErr := fun _ => some (GoError.msg "restart failed")
  inspectResult := fun _ => none
  parse := fun _ => none
  logsSinceErr := fun _ => none

/-- Concrete environment in which the restart call succeeds but the inspect
fails. -/
def witnessEnvC3b : StartEnv where
  startErr := none
  logsErr := none
  waitResult := (0, none)
  restartErr := fun _ => none
  inspectResult := fun _ => none
  parse := fun _ => none
  logsSinceErr := fun _ => none

/-- Concrete environment in which restart and inspect succeed but the
reported start time is unparsable. -/
def witnessEnvC3c : StartEnv where
  startErr := none
  logsErr := none
  waitResult := (0, none)
  restartErr := fun _ => none
  inspectResult := fun _ => some "not a timestamp"
  parse := fun _ => none
  logsSinceErr := fun _ => none

/-- Witness for claim C3 at concrete environments: a returned loop value is
(128, nil); the loop continues past a failed attempt; a failed restart call
performs only the restart; a failed inspect performs restart and inspect; an
unparsable start time windows the new source from the epoch - 10ms. -/
theorem restart_loop_swallows_errors_witness :
    ((128 : Int), (none : Option GoError)) = (128, none) ∧
    restartLoop witnessEnvC3 (Ev.restartTick :: [Ev.exitFires]) 0 =
      (restartAttempt witnessEnvC3 0 ++ (restartLoop witnessEnvC3 [Ev.exitFires] 1).1,
        (restartLoop witnessEnvC3 [Ev.exitFires] 1).2) ∧
    restartAttempt witnessEnvC3 0 = [Action.containerRestart 1] ∧
    restartAttempt witnessEnvC3b 0 =
      [Action.containerRestart 1, Action.containerInspect] ∧
    restartAttempt witnessEnvC3c 0 =
      [Action.containerRestart 1, Action.containerInspect, Action.closeLogSource,
        Action.logsSince (0 - tenMilliseconds)] ++ [Action.pushSource] :=
  ⟨(restart_loop_swallows_errors witnessEnvC3 0).1 [Ev.exitFires] 0 (128, none) rfl,
    (restart_loop_swallows_errors witnessEnvC3 0).2.1 [Ev.exitFires],
    (restart_loop_swallows_errors witnessEnvC3 0).2.2.1
      (GoError.msg "restart failed") rfl,
    (restart_loop_swallows_errors witnessEnvC3b 0).2.2.2.1 rfl rfl,
    (restart_loop_swallows_errors witnessEnvC3c 0).2.2.2.2
      "not a timestamp" rfl rfl rfl⟩

/-- Concrete environment refuting claim C4 as stated: the restart request and
the inspect both succeed (with a parsable start time of 5 s after the epoch),
but the request for the new log source fails. -/
def cexEnvC4 : StartEnv where
  startErr := none
  logsErr := none
  waitResult := (0, none)
  restartErr := fun _ => none
  inspectResult := fun _ => some "2017-01-01T00:00:05Z"
  parse := fun _ => some 5000000000
  logsSinceErr := fun _ => some (GoError.msg "logs request failed")

/-- Counterexample to claim C4: an attempt whose restart request and inspect
both succeed, yet no source is ever pushed into the handoff channel, because
the request for the new log source failed and the loop `continue`d. -/
theorem restart_success_push_cex :
    cexEnvC4.restartErr 0 = none ∧
    cexEnvC4.inspectResult 0 = some "2017-01-01T00:00:05Z" ∧
    cexEnvC4.parse "2017-01-01T00:00:05Z" = some 5000000000 ∧
    Action.pushSource ∉ restartAttempt cexEnvC4 0 := by
  refine ⟨rfl, rfl, rfl, ?_⟩
  intro h
  simp [restartAttempt, cexEnvC4] at h

/-- Claim C4 as amended: on an attempt whose restart request (with the fixed
1-second grace period) and inspect both succeed and whose reported start time
parses to `t`, the attempt closes the previous log source, then requests a
new one with `Since` = `t` - 10ms, and — provided that request succeeds —
then pushes the new source into the handoff channel; if the request fails,
nothing is pushed and the loop retries on the next trigger. -/
theorem restart_success_actions (env : StartEnv) (n : Nat) (s : String) (t : Time)
    (h1 : env.restartErr n = none) (h2 : env.inspectResult n = some s)
    (h3 : env.parse s = some t) :
    restartAttempt env n =
      [Action.containerRestart 1, Action.containerInspect, Action.closeLogSource,
        Action.logsSince (t - tenMilliseconds)] ++
      (match env.logsSinceErr n with
        | some _ => []
        | none => [Action.pushSource]) := by
  cases henv : env.logsSinceErr n <;>
    simp [restartAttempt, h1, h2, h3, henv]

/-- Concrete environment for the C4 witness: the whole restart attempt,
including the new log-source request, succeeds. -/
def witnessEnvC4 : StartEnv where
  startErr := none
  logsErr := none
  waitResult := (0, none)
  restartErr := fun _ => none
  inspectResult := fun _ => some "2017-01-01T00:00:05Z"
  parse := fun _ => some 5000000000
  logsSinceErr := fun _ => none

/-- Witness for the amended claim C4 at a concrete environment. -/
theorem restart_success_actions_witness :
    restartAttempt witnessEnvC4 0 =
      [Action.containerRestart 1, Action.containerInspect, Action.closeLogSource,
        Action.logsSince (5000000000 - tenMilliseconds)] ++
      (match witnessEnvC4.logsSinceErr 0 with
        | some _ => []
        | none => [Action.pushSource]) :=
  restart_success_actions witnessEnvC4 0 "2017-01-01T00:00:05Z" 5000000000 rfl rfl rfl

/-- A byte; values are implicitly 0-255, and the big-endian decoding below
only depends on them as naturals. -/
abbrev Byte := Nat

/-- Embeds `binary.BigEndian.Uint32(header[4:])`: the 4-byte big-endian
payload length read from bytes 4-7 of the frame header. -/
def beUint32 (b4 b5 b6 b7 : Byte) : Nat :=
  ((b4 * 256 + b5) * 256 + b6) * 256 + b7

/-- The log sink (the `dst io.Writer` of `copyStreams`). `budget = none`
models a writer whose writes always succeed; `budget = some k` models a
writer that accepts `k` more bytes and then fails, writing the accepted
part of a short write (Go's `io.Writer` contract for partial writes). -/
structure Sink where
  out : List Byte
  budget : Option Nat
deriving DecidableEq, Repr

/-- One write call on the sink: appends what the sink accepts and reports
whether the full buffer was written. -/
def Sink.write (s : Sink) (bs : List Byte) : Sink × Bool :=
  match s.budget with
  | none => (⟨s.out ++ bs, none⟩, true)
  | some k =>
    if bs.length ≤ k then (⟨s.out ++ bs, some (k - bs.length)⟩, true)
    else (⟨s.out ++ bs.take k, some 0⟩, false)

/-- Embeds the inner `for` of `copyStreams` (container.go lines 142-154) on
one source: read an 8-byte header (`io.ReadFull` fails, abandoning the
source, when fewer than 8 bytes remain); write the prefix (failure or short
write abandons); `io.CopyN` the header-declared payload length (a source
with fewer bytes, or a sink failure, writes what it can and abandons). -/
def copyFrames (pfx : List Byte) : Sink → List Byte → Sink
  | s, _b0 :: _b1 :: _b2 :: _b3 :: b4 :: b5 :: b6 :: b7 :: rest =>
    let n := beUint32 b4 b5 b6 b7
    let w1 := s.write pfx
    if !w1.2 then w1.1
    else
      let w2 := w1.1.write (rest.take n)
      if rest.length < n || !w2.2 then w2.1
      else copyFrames pfx w2.1 (rest.drop n)
  | s, _ => s
termination_by _ src => src.length
decreasing_by
  simp only [List.length_drop, List.length_cons]
  omega

/-- Embeds the outer `for src := range srcs` of `copyStreams` (container.go
lines 140-156): the sources received over the handoff channel, processed
strictly one after another. -/
def copyStreams (dst : Sink) (srcs : List (List Byte)) (pfx : List Byte) : Sink :=
  srcs.foldl (copyFrames pfx) dst

/-- A log frame as the runtime emits it: 1 type-tag byte, 3 reserved bytes,
then the payload whose length is carried big-endian in header bytes 4-7. -/
structure Frame where
  tag : Byte
  pad1 : Byte
  pad2 : Byte
  pad3 : Byte
  payload : List Byte
deriving DecidableEq, Repr

/-- A frame is well formed when its payload length fits the 4-byte length
field. -/
def Frame.wf (f : Frame) : Prop := f.payload.length < 4294967296

instance (f : Frame) : Decidable f.wf := by
  unfold Frame.wf
  infer_instance

/-- The wire encoding of a frame: the 8-byte header followed by the payload. -/
def Frame.bytes (f : Frame) : List Byte :=
  f.tag :: f.pad1 :: f.pad2 :: f.pad3 ::
    (f.payload.length / 16777216 % 256) :: (f.payload.length / 65536 % 256) ::
    (f.payload.length / 256 % 256) :: (f.payload.length % 256) :: f.payload

/-- The wire encoding of a sequence of frames. -/
def framesBytes (fs : List Frame) : List Byte :=
  fs.foldr (fun f acc => f.bytes ++ acc) []

/-- What one well-formed source contributes to the sink: prefix then payload
for each frame. -/
def framesOutput (pfx : List Byte) (fs : List Frame) : List Byte :=
  fs.foldr (fun f acc => pfx ++ f.payload ++ acc) []

/-- The four header length bytes decode back to the payload length. -/
theorem beUint32_length (p : Nat) (hp : p < 4294967296) :
    beUint32 (p / 16777216 % 256) (p / 65536 % 256) (p / 256 % 256) (p % 256) = p := by
  unfold beUint32
  omega

/-- Processing one well-formed frame on an unbounded sink writes the prefix
and exactly the payload, then continues with the remaining bytes. -/
theorem copyFrames_cons_frame (pfx out : List Byte) (f : Frame) (rest : List Byte)
    (hf : f.wf) :
    copyFrames pfx ⟨out, none⟩ (f.bytes ++ rest) =
      copyFrames pfx ⟨out ++ pfx ++ f.payload, none⟩ rest := by
  have hcond : ¬((f.payload ++ rest).length < f.payload.length) := by
    simp only [List.length_append]
    omega
  simp only [Frame.bytes, List.cons_append, copyFrames,
    beUint32_length f.payload.length hf, Sink.write, Bool.not_true,
    List.take_left, List.drop_left, hcond, Bool.not_false, Bool.or_false,
    Bool.false_or, decide_eq_true_eq, if_neg hcond]
  simp [List.append_assoc]

/-- Processing a short tail (header read fails) abandons the source and
leaves the sink unchanged. -/
theorem copyFrames_short (pfx : List Byte) (s : Sink) (tail : List Byte)
    (h : tail.length < 8) : copyFrames pfx s tail = s := by
  match tail, h with
  | [], _ => simp [copyFrames]
  | [_], _ => simp [copyFrames]
  | [_, _], _ => simp [copyFrames]
  | [_, _, _], _ => simp [copyFrames]
  | [_, _, _, _], _ => simp [copyFrames]
  | [_, _, _, _, _], _ => simp [copyFrames]
  | [_, _, _, _, _, _], _ => simp [copyFrames]
  | [_, _, _, _, _, _, _], _ => simp [copyFrames]
  | _ :: _ :: _ :: _ :: _ :: _ :: _ :: _ :: _, h =>
    exact absurd h (by simp only [List.length_cons]; omega)

/-- On an unbounded sink, a source made of well-formed frames followed by an
incomplete header is copied frame by frame — prefix then exactly the declared
payload — and the trailing garbage is dropped when the header read fails. -/
theorem copyFrames_wellformed (pfx : List Byte) (fs : List Frame)
    (hfs : ∀ f ∈ fs, f.wf) (tail : List Byte) (htail : tail.length < 8) :
    ∀ out : List Byte,
      copyFrames pfx ⟨out, none⟩ (framesBytes fs ++ tail) =
        ⟨out ++ framesOutput pfx fs, none⟩ := by
  induction fs with
  | nil =>
    intro out
    simp only [framesBytes, List.foldr_nil, List.nil_append, framesOutput,
      List.append_nil]
    exact copyFrames_short pfx _ tail htail
  | cons f fs ih =>
    intro out
    have hf : f.wf := hfs f (List.mem_cons_self _ _)
    have hfs' : ∀ g ∈ fs, g.wf := fun g hg => hfs g (List.mem_cons_of_mem _ hg)
    simp only [framesBytes, List.foldr_cons, List.append_assoc]
    rw [copyFrames_cons_frame pfx out f _ hf]
    rw [show framesBytes fs = fs.foldr (fun f acc => f.bytes ++ acc) [] from rfl] at ih
    rw [ih hfs']
    simp [framesOutput, List.append_assoc]

/-- Processing one source after another: output over a list of well-formed
sources is the concatenation of the per-source outputs, starting from any
sink contents. -/
theorem copyStreams_wellformed (pfx : List Byte)
    (srcs : List (List Frame × List Byte))
    (hwf : ∀ p ∈ srcs, (∀ f ∈ p.1, f.wf) ∧ p.2.length < 8) :
    ∀ out : List Byte,
      copyStreams ⟨out, none⟩ (srcs.map fun p => framesBytes p.1 ++ p.2) pfx =
        ⟨out ++ srcs.foldr (fun p acc => framesOutput pfx p.1 ++ acc) [], none⟩ := by
  induction srcs with
  | nil =>
    intro out
    simp [copyStreams]
  | cons p rest ih =>
    intro out
    obtain ⟨h1, h2⟩ := hwf p (List.mem_cons_self _ _)
    have hrest : ∀ q ∈ rest, (∀ f ∈ q.1, f.wf) ∧ q.2.length < 8 :=
      fun q hq => hwf q (List.mem_cons_of_mem _ hq)
    simp only [List.map_cons, copyStreams, List.foldl_cons]
    rw [copyFrames_wellformed pfx p.1 h1 p.2 h2 out]
    have hr := ih hrest (out ++ framesOutput pfx p.1)
    simp only [copyStreams] at hr
    rw [hr]
    simp [List.append_assoc]

/-- Claim C5: (a) for every sequence of sources, each a run of well-formed
frames followed by an incomplete header, the multiplexer writes, source by
source in handoff order and frame by frame, the caller's prefix followed by
exactly the payload length declared big-endian in header bytes 4-7 — sources
never interleave, and a header-read failure abandons the source while the
following sources are still processed; (b) a prefix-write failure abandons
the current source immediately; (c) a payload shorter than the declared
length (a `CopyN` failure) writes the available bytes and abandons the
source. -/
theorem copyStreams_frames_spec (pfx out : List Byte)
    (srcs : List (List Frame × List Byte))
    (hwf : ∀ p ∈ srcs, (∀ f ∈ p.1, f.wf) ∧ p.2.length < 8) :
    copyStreams ⟨out, none⟩ (srcs.map fun p => framesBytes p.1 ++ p.2) pfx =
      ⟨out ++ srcs.foldr (fun p acc => framesOutput pfx p.1 ++ acc) [], none⟩ ∧
    (∀ (s : Sink) (b0 b1 b2 b3 b4 b5 b6 b7 : Byte) (rest : List Byte),
      (s.write pfx).2 = false →
      copyFrames pfx s (b0 :: b1 :: b2 :: b3 :: b4 :: b5 :: b6 :: b7 :: rest) =
        (s.write pfx).1) ∧
    (∀ (t0 t1 t2 t3 : Byte) (n : Nat) (short : List Byte),
      short.length < n → n < 4294967296 →
      copyFrames pfx ⟨out, none⟩
          (t0 :: t1 :: t2 :: t3 :: (n / 16777216 % 256) :: (n / 65536 % 256) ::
            (n / 256 % 256) :: (n % 256) :: short) =
        ⟨out ++ pfx ++ short, none⟩) := by
  refine ⟨copyStreams_wellformed pfx srcs hwf out, ?_, ?_⟩
  · intro s b0 b1 b2 b3 b4 b5 b6 b7 rest hw
    simp [copyFrames, hw]
  · intro t0 t1 t2 t3 n short hshort hn
    have hle : short.take n = short := List.take_of_length_le (le_of_lt hshort)
    simp [copyFrames, beUint32_length n hn, Sink.write, hle, hshort,
      List.append_assoc]

/-- A concrete two-payload frame for the C5 witness. -/
def witnessFrameC5 : Frame where
  tag := 1
  pad1 := 0
  pad2 := 0
  pad3 := 0
  payload := [72, 73]

/-- The concrete source list for the C5 witness: one source holding a single
frame with payload `[72, 73]` and no garbage tail. -/
def witnessSrcsC5 : List (List Frame × List Byte) := [([witnessFrameC5], [])]

/-- Witness for claim C5 at concrete inputs: frame-exact copy of a concrete
source list; abandonment when the prefix write fails on an exhausted sink;
abandonment with a partial payload when the source is shorter than the
declared length. -/
theorem copyStreams_frames_spec_witness :
    copyStreams ⟨[], none⟩ (witnessSrcsC5.map fun p => framesBytes p.1 ++ p.2) [35] =
      ⟨[35, 72, 73], none⟩ ∧
    copyFrames [35] ⟨[], some 0⟩ (0 :: 0 :: 0 :: 0 :: 0 :: 0 :: 0 :: 1 :: []) =
      ⟨[], some 0⟩ ∧
    copyFrames [35] ⟨[], none⟩ (0 :: 0 :: 0 :: 0 :: 0 :: 0 :: 0 :: 5 :: [9]) =
      ⟨[35, 9], none⟩ :=
  ⟨(copyStreams_frames_spec [35] [] witnessSrcsC5 (by decide)).1,
    (copyStreams_frames_spec [35] [] witnessSrcsC5 (by decide)).2.1
      ⟨[], some 0⟩ 0 0 0 0 0 0 0 1 [] rfl,
    (copyStreams_frames_spec [35] [] witnessSrcsC5 (by decide)).2.2
      0 0 0 0 5 [9] (by decide) (by decide)⟩

/-- The two steps a wrapped close performs, in execution order. -/
inductive CloseStep where
  | innerClose
  | afterCleanup
deriving DecidableEq, Repr

/-- Embeds `closeWrapper.Close` (container.go lines 230-237): the body first
runs the wrapped `ReadCloser.Close` (result `innerErr`); the deferred block
then always runs `c.After()` (result `afterErr`) and only installs its error
when the inner close succeeded. Returns the steps in execution order and the
resulting error. -/
def closeWrapperClose (innerErr afterErr : Option GoError) :
    List CloseStep × Option GoError :=
  let err := innerErr
  let final := match err with
    | none => afterErr
    | some e => some e
  ([CloseStep.innerClose, CloseStep.afterCleanup], final)

/-- A `ReadCloser`, modelled by the error its `Close` produces. -/
structure RC where
  closeErr : Option GoError
deriving DecidableEq, Repr

/-- A `*Stream` as `CloseAfterStream` inspects it: possibly absent
(`nil` pointer), with a possibly `nil` `ReadCloser`. -/
structure StreamArg where
  readCloser : Option RC
deriving DecidableEq, Repr

/-- What a call to `CloseAfterStream` did: either the container was removed
immediately (with the removal result), or the stream's closer was replaced
by the wrapper (whose later close behaves as recorded). -/
inductive CloseAfterOutcome where
  | closedNow (removeResult : Option GoError)
  | wrapped (onClose : List CloseStep × Option GoError)
deriving DecidableEq, Repr

/-- Embeds `Container.CloseAfterStream` (container.go lines 46-55), with
`removeErr` the result `c.Close()` would produce: a `nil` stream or `nil`
reader closes the container immediately and returns that result; otherwise
the stream's `ReadCloser` is replaced by `closeWrapper{stream.ReadCloser,
c.Close}` and `nil` is returned. -/
def closeAfterStream (removeErr : Option GoError) (stream : Option StreamArg) :
    CloseAfterOutcome × Option GoError :=
  match stream with
  | none => (CloseAfterOutcome.closedNow removeErr, removeErr)
  | some st =>
    match st.readCloser with
    | none => (CloseAfterOutcome.closedNow removeErr, removeErr)
    | some rc =>
      (CloseAfterOutcome.wrapped (closeWrapperClose rc.closeErr removeErr), none)

/-- Claim C6: a `nil` stream or a stream with a `nil` reader closes the
container immediately; otherwise the close is wrapped so that the inner
close runs first, the container-removal cleanup always runs afterwards, and
the inner close's error takes precedence over the cleanup's in the returned
result. -/
theorem closeAfterStream_spec (removeErr innerErr : Option GoError) :
    closeAfterStream removeErr none =
      (CloseAfterOutcome.closedNow removeErr, removeErr) ∧
    closeAfterStream removeErr (some ⟨none⟩) =
      (CloseAfterOutcome.closedNow removeErr, removeErr) ∧
    closeAfterStream removeErr (some ⟨some ⟨innerErr⟩⟩) =
      (CloseAfterOutcome.wrapped
        ([CloseStep.innerClose, CloseStep.afterCleanup],
          match innerErr with
          | none => removeErr
          | some e => some e), none) := by
  refine ⟨rfl, rfl, ?_⟩
  cases innerErr <;> rfl

/-- Removes trailing `/` characters, as the loop in Go's `path.Base` does. -/
def trimTrailingSlashes (s : String) : String :=
  String.mk ((s.data.reverse.dropWhile (fun c => c = '/')).reverse)

/-- Embeds Go's `path.Base` (standard library `path` package, used by
`CopyFrom` as `gopath.Base(path)`): empty path gives ".", trailing slashes
are removed, everything up to the last remaining slash is dropped (keeping
the characters after the last slash), and a path of only slashes gives "/". -/
def goPathBase (path : String) : String :=
  if path = "" then "."
  else
    let p := trimTrailingSlashes path
    if p = "" then "/"
    else String.mk ((p.data.reverse.takeWhile (fun c => c ≠ '/')).reverse)

/-- One archive entry: its header name, the header-declared size, and its
content bytes. -/
structure TarEntry where
  name : String
  entrySize : Int
  content : List Byte
deriving DecidableEq, Repr

/-- Embeds `fileFromTar` (container.go lines 206-218): scan entries in order
for the first whose name equals `name`; `tar.Reader.Next` returns `io.EOF`
when the archive ends without a match, and that error is returned. On a
match the returned reader is the tar reader positioned at that entry, so its
reads produce the entry's content. -/
def fileFromTar (name : String) : List TarEntry → Except GoError TarEntry
  | [] => Except.error GoError.ioEOF
  | e :: rest => if e.name = name then Except.ok e else fileFromTar name rest

/-- The composite stream `CopyFrom` returns: reads come from the matched
entry, the declared size is the runtime's stat size, and its close closes
the original archive stream (the `splitReadCloser` holds the archive stream
as its closer; the tar reader's parse state reads from that same stream, so
closing it releases both). -/
structure StreamS where
  content : List Byte
  size : Int
  closesArchive : Bool
deriving DecidableEq, Repr

/-- Oracle for the runtime's `CopyFromContainer` call: either an error, or
the archive's entries; `statSize` is the `Size` field of the file-stat
metadata returned alongside the archive. -/
structure CopyFromEnv where
  copyFromResult : Except GoError (List TarEntry)
  statSize : Int

/-- Embeds `Container.CopyFrom` (container.go lines 192-204). The first
component records whether the archive stream was closed during the call
itself (`tar.Close()` on the scan-failure path); on success the archive's
closing is handed to the returned stream instead. -/
def copyFrom (env : CopyFromEnv) (path : String) : Bool × Except GoError StreamS :=
  match env.copyFromResult with
  | Except.error e => (false, Except.error e)
  | Except.ok entries =>
    match fileFromTar (goPathBase path) entries with
    | Except.error e => (true, Except.error e)
    | Except.ok entry => (false, Except.ok ⟨entry.content, env.statSize, true⟩)

/-- Scanning an archive with no matching entry ends in the `io.EOF` error. -/
theorem fileFromTar_not_found (name : String) (entries : List TarEntry)
    (h : ∀ x ∈ entries, x.name ≠ name) :
    fileFromTar name entries = Except.error GoError.ioEOF := by
  induction entries with
  | nil => rfl
  | cons e rest ih =>
    have hne : e.name ≠ name := h e (List.mem_cons_self _ _)
    simp only [fileFromTar, if_neg hne]
    exact ih fun x hx => h x (List.mem_cons_of_mem _ hx)

/-- Scanning finds the first matching entry. -/
theorem fileFromTar_found (name : String) (pre post : List TarEntry) (e : TarEntry)
    (hpre : ∀ x ∈ pre, x.name ≠ name) (he : e.name = name) :
    fileFromTar name (pre ++ e :: post) = Except.ok e := by
  induction pre with
  | nil => simp [fileFromTar, he]
  | cons x rest ih =>
    have hne : x.name ≠ name := hpre x (List.mem_cons_self _ _)
    simp only [List.cons_append, fileFromTar, if_neg hne]
    exact ih fun y hy => hpre y (List.mem_cons_of_mem _ hy)

/-- Claim C7: entries are scanned sequentially for the base name of the
path; if none matches before the archive ends, `CopyFrom` fails with the
archive-end (not-found) error; on the first match it returns a composite
stream whose reads come from the matched entry, whose close releases the
original archive stream (and with it the entry reader's parse state), and
whose declared size is the runtime's stat size, not the entry's own. -/
theorem copyFrom_spec (path : String) :
    (∀ (env : CopyFromEnv) (entries : List TarEntry),
      env.copyFromResult = Except.ok entries →
      (∀ x ∈ entries, x.name ≠ goPathBase path) →
      (copyFrom env path).2 = Except.error GoError.ioEOF) ∧
    (∀ (env : CopyFromEnv) (pre post : List TarEntry) (e : TarEntry),
      env.copyFromResult = Except.ok (pre ++ e :: post) →
      (∀ x ∈ pre, x.name ≠ goPathBase path) → e.name = goPathBase path →
      copyFrom env path =
        (false, Except.ok ⟨e.content, env.statSize, true⟩)) := by
  constructor
  · intro env entries henv hnone
    simp only [copyFrom, henv, fileFromTar_not_found (goPathBase path) entries hnone]
  · intro env pre post e henv hpre he
    simp only [copyFrom, henv, fileFromTar_found (goPathBase path) pre post e hpre he]

/-- Concrete environment for the C7 witness: the archive holds a non-matching
entry and then the matching one, whose header size (7) differs from the stat
size (42). -/
def witnessEnvC7 : CopyFromEnv where
  copyFromResult :=
    Except.ok [⟨"other", 3, [1, 2, 3]⟩, ⟨"droplet", 7, [10, 11]⟩]
  statSize := 42

/-- Concrete environment for the not-found half of the C7 witness: a
one-entry archive without the requested name. -/
def witnessEnvC7b : CopyFromEnv where
  copyFromResult := Except.ok [⟨"unrelated", 3, [1, 2, 3]⟩]
  statSize := 5

/-- Witness for claim C7 at path `/tmp/droplet`: on success the size comes
from stat (42), not from the entry header (7); with no matching entry the
archive-end error is returned. -/
theorem copyFrom_spec_witness :
    copyFrom witnessEnvC7 "/tmp/droplet" =
      (false, Except.ok ⟨[10, 11], 42, true⟩) ∧
    (copyFrom witnessEnvC7b "/tmp/droplet").2 = Except.error GoError.ioEOF :=
  ⟨(copyFrom_spec "/tmp/droplet").2 witnessEnvC7 [⟨"other", 3, [1, 2, 3]⟩] []
      ⟨"droplet", 7, [10, 11]⟩ rfl (by decide) (by decide),
    (copyFrom_spec "/tmp/droplet").1 witnessEnvC7b [⟨"unrelated", 3, [1, 2, 3]⟩]
      rfl (by decide)⟩

/-- Claim C10: when the scan finds no entry named the base name of the path,
the archive stream is closed before the error is returned. -/
theorem copyFrom_notfound_closes_archive (env : CopyFromEnv) (path : String)
    (entries : List TarEntry) (henv : env.copyFromResult = Except.ok entries)
    (hnone : ∀ x ∈ entries, x.name ≠ goPathBase path) :
    copyFrom env path = (true, Except.error GoError.ioEOF) := by
  simp only [copyFrom, henv, fileFromTar_not_found (goPathBase path) entries hnone]

/-- Concrete environment for the C10 witness: an archive with no entry named
`droplet`. -/
def witnessEnvC10 : CopyFromEnv where
  copyFromResult := Except.ok [⟨"other", 3, [1, 2, 3]⟩]
  statSize := 9

/-- Witness for claim C10 at path `/tmp/droplet`. -/
theorem copyFrom_notfound_closes_archive_witness :
    copyFrom witnessEnvC10 "/tmp/droplet" = (true, Except.error GoError.ioEOF) :=
  copyFrom_notfound_closes_archive witnessEnvC10 "/tmp/droplet"
    [⟨"other", 3, [1, 2, 3]⟩] rfl (by decide)

/-- Modelled from the spec: `tarFile` (an engine utility whose source is not
under src/) wraps a stream, with its declared size and a fixed permission
mode, into a single-entry archive whose entry is named by the target path's
base name; the call may fail, which the `failure` oracle field captures. -/
def tarFile (failure : Option GoError) (path : String) (content : List Byte)
    (size : Int) (_mode : Nat) : Except GoError (List TarEntry) :=
  match failure with
  | some e => Except.error e
  | none => Except.ok [⟨goPathBase path, size, content⟩]

/-- Oracle for the collaborator calls `CopyTo` makes: `tarFileErr` is the
archive-construction failure, `extractErr` the `ExtractTo` /
`CopyToContainer` failure, `streamCloseErr` the result of `stream.Close()`. -/
structure CopyToEnv where
  tarFileErr : Option GoError
  extractErr : Option GoError
  streamCloseErr : Option GoError

/-- Embeds `Container.CopyTo` (container.go lines 181-190): build the
archive (propagating failure), extract it at "/" (propagating failure), and
only then close the source stream, returning its close result. The first
component records whether `stream.Close()` was called. -/
def copyTo (env : CopyToEnv) (content : List Byte) (size : Int) (path : String) :
    Bool × Option GoError :=
  match tarFile env.tarFileErr path content size 493 with
  | Except.error e => (false, some e)
  | Except.ok _archive =>
    match env.extractErr with
    | some e => (false, some e)
    | none => (true, env.streamCloseErr)

/-- Claim C8: the source stream is closed after the archive-and-extract
operation succeeds, but on an extraction failure (or an archive-construction
failure) this path returns without releasing the stream. -/
theorem copyTo_stream_release (env : CopyToEnv) (content : List Byte)
    (size : Int) (path : String) :
    (env.tarFileErr = none → env.extractErr = none →
      copyTo env content size path = (true, env.streamCloseErr)) ∧
    (∀ e : GoError, env.tarFileErr = none → env.extractErr = some e →
      copyTo env content size path = (false, some e)) ∧
    (∀ e : GoError, env.tarFileErr = some e →
      copyTo env content size path = (false, some e)) := by
  refine ⟨?_, ?_, ?_⟩
  · intro h1 h2
    simp only [copyTo, tarFile, h1, h2]
  · intro e h1 h2
    simp only [copyTo, tarFile, h1, h2]
  · intro e h1
    simp only [copyTo, tarFile, h1]

/-- Concrete environment for the C8 witness: archive construction succeeds
and the extraction fails. -/
def witnessEnvC8 : CopyToEnv where
  tarFileErr := none
  extractErr := some (GoError.msg "boom")
  streamCloseErr := none

/-- Concrete environment for the success half of the C8 witness: archive
construction and extraction both succeed. -/
def witnessEnvC8ok : CopyToEnv where
  tarFileErr := none
  extractErr := none
  streamCloseErr := none

/-- Witness for claim C8 at concrete environments: with a failing extraction
the stream is not closed; on full success it is closed. -/
theorem copyTo_stream_release_witness :
    copyTo witnessEnvC8 [7] 1 "/tmp/droplet" =
      (false, some (GoError.msg "boom")) ∧
    copyTo witnessEnvC8ok [7] 1 "/tmp/droplet" = (true, none) :=
  ⟨(copyTo_stream_release witnessEnvC8 [7] 1 "/tmp/droplet").2.1
      (GoError.msg "boom") rfl rfl,
    (copyTo_stream_release witnessEnvC8ok [7] 1 "/tmp/droplet").1 rfl rfl⟩

/-- The parts of `container.Config` this code reads: the caller-supplied
host name (used in the creation request's name) and the image, standing for
the rest of the retained config. -/
structure ContainerConfig where
  hostname : String
  image : String
deriving DecidableEq, Repr

/-- The `Container` handle as container.go stores it: the resource id from
the creation response and the original config, retained verbatim. -/
structure ContainerM where
  id : String
  config : ContainerConfig
deriving DecidableEq, Repr

/-- Oracle for `NewContainer`'s collaborator calls: `uuidResult` abstracts
`gouuid.NewV4()` (the freshly generated random suffix), and
`createResponse` maps the requested container name to the runtime's
`ContainerCreate` response — the `response.ID` the runtime assigned. -/
structure CreateEnv where
  uuidResult : Except GoError String
  createResponse : String → Except GoError String

/-- Embeds `NewContainer` (container.go lines 26-37): generate the uuid,
request creation under the name `config.Hostname + "-" + uuid`, and store
the runtime's `response.ID` as the handle's id together with the original
config. -/
def newContainer (env : CreateEnv) (config : ContainerConfig) :
    Except GoError ContainerM :=
  match env.uuidResult with
  | Except.error e => Except.error e
  | Except.ok uuid =>
    match env.createResponse (config.hostname ++ "-" ++ uuid) with
    | Except.error e => Except.error e
    | Except.ok responseID => Except.ok ⟨responseID, config⟩

/-- The operations a caller can perform on a handle after creation. -/
inductive ContainerOp where
  | startOp
  | commitOp (ref : String)
  | copyToOp (path : String)
  | copyFromOp (path : String)
  | closeOp
deriving DecidableEq, Repr

/-- Embeds each method's effect on the handle itself: no method body in
container.go assigns to any field of the receiver (`Start`, `Commit`,
`CopyTo`, `CopyFrom` and `Close` only read `c.Docker`, `c.ID` and
`c.config`), so every operation leaves the handle unchanged. -/
def applyOp (c : ContainerM) : ContainerOp → ContainerM
  | ContainerOp.startOp => c
  | ContainerOp.commitOp _ => c
  | ContainerOp.copyToOp _ => c
  | ContainerOp.copyFromOp _ => c
  | ContainerOp.closeOp => c

/-- Concrete creation environment refuting claim C9 as stated: the uuid is
"1234" and the runtime assigns the response id "deadbeef". -/
def cexCreateEnv : CreateEnv where
  uuidResult := Except.ok "1234"
  createResponse := fun _ => Except.ok "deadbeef"

/-- Counterexample to claim C9: the handle's id is the runtime's creation
response id, which differs from the name formed by combining the
caller-supplied host name with the freshly generated random suffix. -/
theorem newContainer_id_not_combined_cex :
    newContainer cexCreateEnv ⟨"host", "img"⟩ =
      Except.ok ⟨"deadbeef", ⟨"host", "img"⟩⟩ ∧
    "deadbeef" ≠ "host" ++ "-" ++ "1234" := by
  constructor
  · rfl
  · decide

/-- Claim C9 as amended: the creation request names the resource by
combining the caller-supplied host name with the freshly generated random
suffix; the handle's resource id is the id the runtime's creation response
assigned under that name, fixed at creation; and no subsequent operation
(Start, Commit, CopyTo, CopyFrom, Close) ever changes it. -/
theorem container_id_immutable (env : CreateEnv) (config : ContainerConfig)
    (uuid rid : String) (hu : env.uuidResult = Except.ok uuid)
    (hc : env.createResponse (config.hostname ++ "-" ++ uuid) = Except.ok rid) :
    newContainer env config = Except.ok ⟨rid, config⟩ ∧
    ∀ ops : List ContainerOp, (ops.foldl applyOp ⟨rid, config⟩).id = rid := by
  constructor
  · simp only [newContainer, hu, hc]
  · intro ops
    induction ops generalizing rid config with
    | nil => rfl
    | cons op rest ih =>
      cases op <;> exact ih _ _ hc

/-- Witness for the amended claim C9 at a concrete environment, with a full
sequence of subsequent operations. -/
theorem container_id_immutable_witness :
    newContainer cexCreateEnv ⟨"host", "img"⟩ =
      Except.ok ⟨"deadbeef", ⟨"host", "img"⟩⟩ ∧
    ([ContainerOp.startOp, ContainerOp.commitOp "v1", ContainerOp.copyToOp "/a",
        ContainerOp.copyFromOp "/b", ContainerOp.closeOp].foldl applyOp
      ⟨"deadbeef", ⟨"host", "img"⟩⟩).id = "deadbeef" :=
  ⟨(container_id_immutable cexCreateEnv ⟨"host", "img"⟩ "1234" "deadbeef" rfl rfl).1,
    (container_id_immutable cexCreateEnv ⟨"host", "img"⟩ "1234" "deadbeef" rfl rfl).2
      [ContainerOp.startOp, ContainerOp.commitOp "v1", ContainerOp.copyToOp "/a",
        ContainerOp.copyFromOp "/b", ContainerOp.closeOp]⟩

end Engine
